import Mathlib

/-!
Verification of the TexVoice call-orchestration service: a shallow embedding
of its database layer (`database.service.ts`), tool dispatcher
(`tools.controller.ts`), context builder (`context-builder.service.ts`) and
webhook session controller (`inbound.controller.ts`), with theorems about
their behaviour.
-/

set_option linter.unusedVariables false

namespace TexVoice

/-! ## JavaScript value coercions

The TypeScript source routinely writes `x || null` and `if (x)` on nullable
strings and numbers.  JavaScript treats `null`, `undefined`, the empty string
and `0` as falsy, so `"" || null` is `null` and `0 || null` is `null`.  These
helpers model that coercion on `Option` values (where `none` stands for both
`null` and `undefined`). -/

/-- Model of the JS expression `x || null` on a nullable string: the empty
string is falsy and collapses to `null`. -/
def jsOrNull (o : Option String) : Option String :=
  if o = some "" then none else o

/-- Model of the JS expression `x || null` on a nullable number: `0` is falsy
and collapses to `null`. -/
def jsOrNullInt (o : Option Int) : Option Int :=
  if o = some 0 then none else o

/-- Model of a JS template literal rendering a possibly-`undefined` value:
`undefined` prints as the string `"undefined"`. -/
def jsStr (o : Option String) : String := o.getD "undefined"

/-- Model of a JS template literal rendering a possibly-`null` database
column: `null` prints as the string `"null"`. -/
def jsStrNull (o : Option String) : String := o.getD "null"

/-! ## Call Record Store: the `calls` table and `saveCall`

`DatabaseService.saveCall` runs `INSERT OR REPLACE INTO calls (...)` with the
call id as the table's `PRIMARY KEY`, mapping absent input fields to `NULL`
via `|| null` and computing `duration_seconds` from the two timestamps.  The
store is modelled as a list of rows; `INSERT OR REPLACE` removes any row with
the same primary key and inserts the new row. -/

/-- The `costBreakdown` object of an end-of-call report. -/
structure CostBreakdown where
  transport : Option Int
  stt : Option Int
  llm : Option Int
  tts : Option Int
  vapi : Option Int
  llmPromptTokens : Option Int
  llmCompletionTokens : Option Int
  ttsCharacters : Option Int
deriving DecidableEq

/-- The argument record of `DatabaseService.saveCall`. -/
structure CallData where
  id : String
  phoneNumberId : Option String
  callerPhone : Option String
  callType : Option String
  startedAt : Option Int
  endedAt : Option Int
  status : String
  endedReason : Option String
  transcript : Option String
  summary : Option String
  recordingUrl : Option String
  stereoRecordingUrl : Option String
  successScore : Option Int
  cost : Option Int
  costBreakdown : Option CostBreakdown
deriving DecidableEq

/-- A row of the `calls` table (schema.sql), keyed by the primary key `id`. -/
structure CallRow where
  id : String
  phoneNumberId : Option String
  callerPhone : Option String
  callType : Option String
  startedAt : Option Int
  endedAt : Option Int
  durationSeconds : Option Int
  status : String
  endedReason : Option String
  transcript : Option String
  summary : Option String
  recordingUrl : Option String
  stereoRecordingUrl : Option String
  successScore : Option Int
  costTotal : Option Int
  costTransport : Option Int
  costStt : Option Int
  costLlm : Option Int
  costTts : Option Int
  costVapi : Option Int
  llmPromptTokens : Option Int
  llmCompletionTokens : Option Int
  ttsCharacters : Option Int
deriving DecidableEq

/-- The bound-parameter row that `saveCall` writes: every optional field goes
through `|| null`, and `duration_seconds` is `floor((ended - started)/1000)`
when both timestamps are present (timestamps modelled as epoch
milliseconds). -/
def rowOfCallData (d : CallData) : CallRow :=
  { id := d.id
    phoneNumberId := jsOrNull d.phoneNumberId
    callerPhone := jsOrNull d.callerPhone
    callType := jsOrNull d.callType
    startedAt := jsOrNullInt d.startedAt
    endedAt := jsOrNullInt d.endedAt
    durationSeconds :=
      match jsOrNullInt d.startedAt, jsOrNullInt d.endedAt with
      | some s, some e => some ((e - s).fdiv 1000)
      | _, _ => none
    status := d.status
    endedReason := jsOrNull d.endedReason
    transcript := jsOrNull d.transcript
    summary := jsOrNull d.summary
    recordingUrl := jsOrNull d.recordingUrl
    stereoRecordingUrl := jsOrNull d.stereoRecordingUrl
    successScore := jsOrNullInt d.successScore
    costTotal := jsOrNullInt d.cost
    costTransport := jsOrNullInt (d.costBreakdown.bind fun b => b.transport)
    costStt := jsOrNullInt (d.costBreakdown.bind fun b => b.stt)
    costLlm := jsOrNullInt (d.costBreakdown.bind fun b => b.llm)
    costTts := jsOrNullInt (d.costBreakdown.bind fun b => b.tts)
    costVapi := jsOrNullInt (d.costBreakdown.bind fun b => b.vapi)
    llmPromptTokens := jsOrNullInt (d.costBreakdown.bind fun b => b.llmPromptTokens)
    llmCompletionTokens := jsOrNullInt (d.costBreakdown.bind fun b => b.llmCompletionTokens)
    ttsCharacters := jsOrNullInt (d.costBreakdown.bind fun b => b.ttsCharacters) }

/-- `DatabaseService.saveCall`: `INSERT OR REPLACE INTO calls` keyed by the
primary key `id` — the conflicting row (if any) is deleted and the new row
inserted. -/
def saveCall (store : List CallRow) (d : CallData) : List CallRow :=
  rowOfCallData d :: store.filter (fun r => !(r.id == d.id))

theorem rowOfCallData_id (d : CallData) : (rowOfCallData d).id = d.id := rfl

/-- Rows surviving a removal by id never match that id again. -/
theorem filter_id_after_remove (i : String) (l : List CallRow) :
    (l.filter (fun r => !(r.id == i))).filter (fun r => r.id == i) = [] := by
  induction l with
  | nil => rfl
  | cons a t ih =>
      by_cases h : a.id = i
      · simp [List.filter_cons, h, ih]
      · simp [List.filter_cons, h, ih]

/-- C1: writing a call row and then writing a second call row with the same
id leaves exactly one stored row for that id, and that row is the one the
second write produced (its status, summary and every other field come from
the second write); repeated end-of-call reports never duplicate rows. -/
theorem saveCall_upsert_by_id (store : List CallRow) (d1 d2 : CallData)
    (h : d1.id = d2.id) :
    (saveCall (saveCall store d1) d2).filter (fun r => r.id == d2.id)
      = [rowOfCallData d2] := by
  unfold saveCall
  simp [List.filter_cons, rowOfCallData_id, h, filter_id_after_remove]

/-- A concrete first delivery of an end-of-call report for call `call-1`. -/
def callDataA : CallData :=
  { id := "call-1"
    phoneNumberId := some "pn-1"
    callerPhone := some "+15125559999"
    callType := some "inboundPhoneCall"
    startedAt := some 1000
    endedAt := some 61000
    status := "ended"
    endedReason := some "customer-ended-call"
    transcript := none
    summary := some "first delivery"
    recordingUrl := none
    stereoRecordingUrl := none
    successScore := some 7
    cost := none
    costBreakdown := none }

/-- A repeated delivery of the report for the same call id with a different
summary and score. -/
def callDataB : CallData :=
  { callDataA with summary := some "second delivery", successScore := some 8 }

theorem saveCall_upsert_by_id_witness :
    (saveCall (saveCall [] callDataA) callDataB).filter
        (fun r => r.id == callDataB.id)
      = [rowOfCallData callDataB] :=
  saveCall_upsert_by_id [] callDataA callDataB rfl

/-! ## Caller Directory: the `contacts` table and `updateContact`

`DatabaseService.updateContact` looks the phone number up; for an existing
row it runs `UPDATE contacts SET name = COALESCE(?, name), ...` where each
bound parameter is `data.field || null`, increments `total_calls` and stamps
`last_call_at`; for a missing row it inserts a fresh contact (the schema
defaults `status` to `'New'`). -/

/-- A row of the `contacts` table (schema.sql), keyed by the unique
`phone_number`. -/
structure Contact where
  phoneNumber : String
  name : Option String
  company : Option String
  email : Option String
  status : Option String
  lastMachine : Option String
  totalCalls : Int
  lastCallAt : Option String
deriving DecidableEq

/-- The incoming field set of `DatabaseService.updateContact`. -/
structure ContactUpdate where
  name : Option String
  company : Option String
  email : Option String
  lastMachine : Option String
deriving DecidableEq

/-- SQL `COALESCE(?, column)`: the bound parameter when non-`NULL`, otherwise
the stored column value. -/
def coalesce (incoming stored : Option String) : Option String :=
  match incoming with
  | some v => some v
  | none => stored

/-- The row transformation of the `UPDATE` branch of `updateContact`: each
field is `COALESCE(data.field || null, column)`, `total_calls` is
incremented and `last_call_at` set to the current timestamp `now`. -/
def applyContactUpdate (now : String) (c : Contact) (u : ContactUpdate) : Contact :=
  { c with
    name := coalesce (jsOrNull u.name) c.name
    company := coalesce (jsOrNull u.company) c.company
    email := coalesce (jsOrNull u.email) c.email
    lastMachine := coalesce (jsOrNull u.lastMachine) c.lastMachine
    totalCalls := c.totalCalls + 1
    lastCallAt := some now }

/-- The `INSERT` branch of `updateContact` for a phone number with no stored
row: `total_calls` starts at 1 and the schema defaults `status` to `New`. -/
def freshContact (now : String) (phone : String) (u : ContactUpdate) : Contact :=
  { phoneNumber := phone
    name := jsOrNull u.name
    company := jsOrNull u.company
    email := jsOrNull u.email
    status := some "New"
    lastMachine := jsOrNull u.lastMachine
    totalCalls := 1
    lastCallAt := some now }

/-- `DatabaseService.updateContact` over the whole `contacts` store. -/
def updateContact (now : String) (store : List Contact) (phone : String)
    (u : ContactUpdate) : List Contact :=
  match store.find? (fun c => c.phoneNumber == phone) with
  | some _ => store.map (fun c =>
      if c.phoneNumber == phone then applyContactUpdate now c u else c)
  | none => store ++ [freshContact now phone u]

/-- An existing stored contact with name Bob and no company. -/
def bobContact : Contact :=
  { phoneNumber := "+15125559999"
    name := some "Bob"
    company := none
    email := none
    status := some "New"
    lastMachine := none
    totalCalls := 3
    lastCallAt := none }

/-- An incoming field set whose `name` is the empty string (non-null). -/
def emptyNameUpdate : ContactUpdate :=
  { name := some "", company := some "Acme", email := none, lastMachine := none }

/-- C2 counterexample: the incoming `name` field `""` is non-null, yet the
update leaves the stored name `"Bob"` unchanged instead of replacing it —
the handler passes `data.name || null` to `COALESCE`, so the JS-falsy empty
string is treated as absent.  This refutes "an incoming non-null field
replaces it" as universally stated. -/
theorem contact_merge_counterexample :
    emptyNameUpdate.name ≠ none ∧
    (applyContactUpdate "2026-10-11" bobContact emptyNameUpdate).name
      = some "Bob" ∧
    (applyContactUpdate "2026-10-11" bobContact emptyNameUpdate).name
      ≠ emptyNameUpdate.name := by
  refine ⟨by decide, by decide, by decide⟩

/-- C2 amended: the contact update is a coalesce-merge after JS falsy
coercion — an incoming null/absent or empty-string field leaves the stored
value unchanged, and an incoming non-null, non-empty field replaces it. -/
theorem contact_coalesce_merge (now : String) (c : Contact) (u : ContactUpdate) :
    ((u.name = none ∨ u.name = some "") →
        (applyContactUpdate now c u).name = c.name)
  ∧ (∀ v, v ≠ "" → u.name = some v →
        (applyContactUpdate now c u).name = some v)
  ∧ ((u.company = none ∨ u.company = some "") →
        (applyContactUpdate now c u).company = c.company)
  ∧ (∀ v, v ≠ "" → u.company = some v →
        (applyContactUpdate now c u).company = some v)
  ∧ ((u.email = none ∨ u.email = some "") →
        (applyContactUpdate now c u).email = c.email)
  ∧ (∀ v, v ≠ "" → u.email = some v →
        (applyContactUpdate now c u).email = some v)
  ∧ ((u.lastMachine = none ∨ u.lastMachine = some "") →
        (applyContactUpdate now c u).lastMachine = c.lastMachine)
  ∧ (∀ v, v ≠ "" → u.lastMachine = some v →
        (applyContactUpdate now c u).lastMachine = some v) := by
  refine ⟨?_, ?_, ?_, ?_, ?_, ?_, ?_, ?_⟩ <;>
    first
      | (rintro (h | h) <;> simp [applyContactUpdate, coalesce, jsOrNull, h])
      | (intro v hv h; simp [applyContactUpdate, coalesce, jsOrNull, h, hv])

/-- The spec's example field set: `{name: null, company: "Acme"}`. -/
def acmeUpdate : ContactUpdate :=
  { name := none, company := some "Acme", email := none, lastMachine := none }

theorem contact_coalesce_merge_witness :
    (applyContactUpdate "2026-10-11" bobContact acmeUpdate).name = some "Bob"
  ∧ (applyContactUpdate "2026-10-11" bobContact acmeUpdate).company
      = some "Acme" := by
  have h := contact_coalesce_merge "2026-10-11" bobContact acmeUpdate
  exact ⟨h.1 (Or.inl rfl), h.2.2.2.1 "Acme" (by decide) rfl⟩

/-! ## Business Calendar: `calculateUpcomingBusinessDays`

`calculateUpcomingBusinessDays(currentDate)` in
`context-builder.service.ts` computes, from the current Arizona calendar
day, tomorrow (omitted when it is a Sunday), the next non-Sunday day, the
next Monday and the next Tuesday.  Days are modelled as day indices
(`Nat`), with the JS `getDay()` weekday being the index mod 7
(0 = Sunday, 1 = Monday, ..., 6 = Saturday); adding one day with `setDate`
is `+ 1` on the index.  The source's `while (d.getDay() !== target)` loops
advance at most 6 days, so they are embedded with an explicit fuel of 7. -/

/-- The loop `while (d.getDay() !== target) d.setDate(d.getDate() + 1)`,
with fuel bounding the number of iterations. -/
def advanceToWeekday (target : Nat) : Nat → Nat → Nat
  | 0, d => d
  | fuel + 1, d => if d % 7 = target then d else advanceToWeekday target fuel (d + 1)

/-- The next-Monday / next-Tuesday computation: advance to the named weekday,
then `if (candidate.getTime() <= currentDate.getTime()) +7 days`. -/
def nextWeekdayStrict (target today : Nat) : Nat :=
  let cand := advanceToWeekday target 7 today
  if cand ≤ today then cand + 7 else cand

/-- The `do { +1 day } while (getDay() === 0)` loop skipping Sundays, with
fuel (it runs at most twice). -/
def skipSundays : Nat → Nat → Nat
  | 0, d => d
  | fuel + 1, d => if d % 7 = 0 then skipSundays fuel (d + 1) else d

/-- The record returned by `calculateUpcomingBusinessDays`. -/
structure UpcomingBusinessDays where
  tomorrow : Option Nat
  nextBusinessDay : Nat
  nextMonday : Nat
  nextTuesday : Nat
deriving DecidableEq

/-- `calculateUpcomingBusinessDays`: tomorrow (none when it falls on a
Sunday), the next non-Sunday day, the next Monday and the next Tuesday. -/
def calculateUpcomingBusinessDays (today : Nat) : UpcomingBusinessDays :=
  { tomorrow := if (today + 1) % 7 = 0 then none else some (today + 1)
    nextBusinessDay := skipSundays 7 (today + 1)
    nextMonday := nextWeekdayStrict 1 today
    nextTuesday := nextWeekdayStrict 2 today }

/-- The advance loop never moves backwards. -/
theorem advanceToWeekday_ge (target fuel d : Nat) :
    d ≤ advanceToWeekday target fuel d := by
  induction fuel generalizing d with
  | zero => simp [advanceToWeekday]
  | succ n ih =>
      simp only [advanceToWeekday]
      split
      · exact le_refl d
      · exact le_trans (by omega) (ih (d + 1))

/-- With enough fuel to reach a day of the target weekday, the advance loop
stops on the target weekday. -/
theorem advanceToWeekday_mod (target fuel d : Nat)
    (hreach : ∃ k, k < fuel + 1 ∧ (d + k) % 7 = target) :
    advanceToWeekday target fuel d % 7 = target := by
  induction fuel generalizing d with
  | zero =>
      obtain ⟨k, hk, hm⟩ := hreach
      have hk0 : k = 0 := by omega
      subst hk0
      simpa [advanceToWeekday] using hm
  | succ n ih =>
      simp only [advanceToWeekday]
      split
      · assumption
      · rename_i h
        apply ih
        obtain ⟨k, hk, hm⟩ := hreach
        cases k with
        | zero => exact absurd (by simpa using hm) h
        | succ m =>
            refine ⟨m, by omega, ?_⟩
            have : d + 1 + m = d + (m + 1) := by omega
            rw [this]
            exact hm
/-- The advance loop is the identity when today already has the target
weekday. -/
theorem advanceToWeekday_at_target (target fuel d : Nat) (h : d % 7 = target) :
    advanceToWeekday target fuel d = d := by
  cases fuel with
  | zero => rfl
  | succ n => simp [advanceToWeekday, h]

theorem nextWeekdayStrict_def (target today : Nat) :
    nextWeekdayStrict target today =
      if advanceToWeekday target 7 today ≤ today
      then advanceToWeekday target 7 today + 7
      else advanceToWeekday target 7 today := rfl

/-- `nextWeekdayStrict` lands strictly in the future on the named weekday. -/
theorem nextWeekdayStrict_spec (target today : Nat) (ht : target < 7) :
    today < nextWeekdayStrict target today
    ∧ nextWeekdayStrict target today % 7 = target := by
  rw [nextWeekdayStrict_def]
  have hge := advanceToWeekday_ge target 7 today
  have hmod := advanceToWeekday_mod target 7 today
    ⟨(target + 7 - today % 7) % 7, by omega, by omega⟩
  split
  · rename_i h
    have heq : advanceToWeekday target 7 today = today := by omega
    rw [heq] at hmod ⊢
    exact ⟨by omega, by omega⟩
  · rename_i h
    exact ⟨by omega, hmod⟩

/-- C3: the Business Calendar's next Monday and next Tuesday are strictly in
the future, land on the named weekday, and are advanced by a full week when
today itself already falls on that weekday. -/
theorem upcoming_monday_tuesday (today : Nat) :
    (today < (calculateUpcomingBusinessDays today).nextMonday
      ∧ (calculateUpcomingBusinessDays today).nextMonday % 7 = 1)
  ∧ (today < (calculateUpcomingBusinessDays today).nextTuesday
      ∧ (calculateUpcomingBusinessDays today).nextTuesday % 7 = 2)
  ∧ (today % 7 = 1 →
      (calculateUpcomingBusinessDays today).nextMonday = today + 7)
  ∧ (today % 7 = 2 →
      (calculateUpcomingBusinessDays today).nextTuesday = today + 7) := by
  refine ⟨nextWeekdayStrict_spec 1 today (by omega),
          nextWeekdayStrict_spec 2 today (by omega), ?_, ?_⟩
  · intro h
    show nextWeekdayStrict 1 today = today + 7
    rw [nextWeekdayStrict_def, advanceToWeekday_at_target 1 7 today h]
    simp
  · intro h
    show nextWeekdayStrict 2 today = today + 7
    rw [nextWeekdayStrict_def, advanceToWeekday_at_target 2 7 today h]
    simp

theorem upcoming_monday_tuesday_witness :
    ((8 : Nat) % 7 = 1 ∧ (calculateUpcomingBusinessDays 8).nextMonday = 8 + 7)
  ∧ (9 < (calculateUpcomingBusinessDays 9).nextTuesday
      ∧ (calculateUpcomingBusinessDays 9).nextTuesday % 7 = 2) :=
  ⟨⟨by decide, (upcoming_monday_tuesday 8).2.2.1 (by decide)⟩,
   (upcoming_monday_tuesday 9).2.1⟩

/-! ## String utilities

`String.prototype.includes` and `toLowerCase`, modelled over character
lists. -/

/-- Whether the second list is a prefix of the first. -/
def startsWithList : List Char → List Char → Bool
  | _, [] => true
  | [], _ :: _ => false
  | a :: s, b :: p => a == b && startsWithList s p

/-- Whether `pat` occurs as a contiguous run inside the list. -/
def hasSubList (pat : List Char) : List Char → Bool
  | [] => startsWithList [] pat
  | c :: rest => startsWithList (c :: rest) pat || hasSubList pat rest

/-- JS `s.includes(pat)`. -/
def strContains (s pat : String) : Bool := hasSubList pat.data s.data

/-- JS `s.toLowerCase()` (ASCII). -/
def lowerStr (s : String) : String := String.mk (s.data.map Char.toLower)

/-! ## Equipment Directory: `InventoryService` over the mock inventory

`inventory.service.ts` searches the static `INVENTORY` table of `db/mock.ts`
by case-insensitive substring match on model and category, and formats the
matches as a spoken result string. -/

/-- An entry of the mock `INVENTORY` table. -/
structure InventoryItem where
  model : String
  category : String
  available : Nat
  pricePerDay : Nat
  condition : String
  year : Nat
  specs : String
deriving DecidableEq

/-- The static inventory of `db/mock.ts`. -/
def INVENTORY : List InventoryItem :=
  [ ⟨"Cat 336", "Excavator", 2, 1200, "Excellent", 2022, "36-ton, 268hp, 24ft dig depth"⟩
  , ⟨"Cat 320", "Excavator", 3, 950, "Good", 2021, "20-ton, 121hp, 20ft dig depth"⟩
  , ⟨"Cat D6", "Dozer", 0, 900, "Good", 2020, "160hp, 14ft blade"⟩
  , ⟨"Cat D8", "Dozer", 1, 1400, "Excellent", 2023, "305hp, 16ft blade, GPS ready"⟩
  , ⟨"Bobcat T76", "Skid Steer", 5, 350, "Good", 2021, "74hp, 3,000lb capacity"⟩
  , ⟨"Bobcat S650", "Skid Steer", 4, 300, "Fair", 2019, "74hp, 2,300lb capacity"⟩
  , ⟨"JCB 3CX", "Backhoe", 2, 500, "Good", 2020, "97hp, 4WD, extendable arm"⟩
  , ⟨"Cat 950M", "Loader", 2, 850, "Excellent", 2022, "220hp, 5-yard bucket"⟩
  , ⟨"Volvo A40G", "Dump Truck", 3, 1100, "Good", 2021, "38-ton capacity, articulated"⟩
  , ⟨"Manitowoc 18000", "Crane", 1, 2500, "Excellent", 2023, "440-ton capacity, crawler mounted"⟩
  , ⟨"Bobcat S570", "Skid Steer", 3, 275, "Good", 2020, "66hp, 2,000lb capacity"⟩
  , ⟨"Cat 262D", "Skid Steer", 2, 400, "Excellent", 2023, "90hp, 3,300lb capacity"⟩
  , ⟨"John Deere 332G", "Skid Steer", 4, 380, "Good", 2022, "100hp, 3,700lb capacity"⟩
  , ⟨"Kubota SSV75", "Skid Steer", 2, 320, "Fair", 2019, "74hp, 2,590lb capacity"⟩ ]

/-- `InventoryService.search`: empty query matches nothing; otherwise
case-insensitive substring match on model or category. -/
def searchInventory (query : String) : List InventoryItem :=
  if query = "" then []
  else
    INVENTORY.filter (fun item =>
      strContains (lowerStr item.model) (lowerStr query)
        || strContains (lowerStr item.category) (lowerStr query))

/-- `InventoryService.formatResults`. -/
def formatResults (items : List InventoryItem) : String :=
  if items.isEmpty then ""
  else
    String.intercalate ", " (items.map (fun item =>
      item.model ++ " (" ++ toString item.available ++ " available at $"
        ++ toString item.pricePerDay ++ "/day)"))

/-- `InventoryService.searchAndFormat`. -/
def searchAndFormat (query : String) : String :=
  let found := searchInventory query
  if found.isEmpty then
    "I checked the lot, but I don\x27t see any " ++ query
      ++ " available right now."
  else
    "We have the following available: " ++ formatResults found

/-! ## Tool Dispatcher: `tools.controller.ts`

`handleToolExecution` takes the first tool invocation of the batch, parses
its arguments (tolerating a JSON string or a native object, defaulting to
`{}` on a parse failure), looks the function name up in the `toolHandlers`
registry, executes the handler, and answers with a sync result, an async
acknowledgement, or a 500 error when the handler throws.  Collaborators
(the contact lookup, the client lookup, the callback store write and the
live-call-control POST) are injected through `ToolEnv`, whose two `Ok`
flags model whether the corresponding network call succeeds or throws. -/

/-- The argument object of a tool invocation, after JSON decoding. -/
structure ToolArgs where
  query : Option String
  department : Option String
  reason : Option String
  urgency : Option String
  customerName : Option String
  customerPhone : Option String
  preferredTime : Option String
deriving DecidableEq

/-- The `{}` argument object. -/
def emptyToolArgs : ToolArgs := ⟨none, none, none, none, none, none, none⟩

/-- The raw `function.arguments` field: a JSON string that decodes to an
object, a JSON string that fails to decode, or an already-native object. -/
inductive RawArgs where
  | jsonGood (a : ToolArgs)
  | jsonBad
  | obj (a : ToolArgs)
deriving DecidableEq

/-- The argument-parsing step: `JSON.parse` a string argument, defaulting to
`{}` when parsing throws; pass a native object through. -/
def parseToolArgs : RawArgs → ToolArgs
  | .jsonGood a => a
  | .jsonBad => emptyToolArgs
  | .obj a => a

/-- One entry of the `message.toolCalls` batch. -/
structure ToolFunctionCall where
  name : String
  arguments : RawArgs
deriving DecidableEq

/-- A tool invocation (`{ id, function: { name, arguments } }`). -/
structure ToolCall where
  id : String
  function : ToolFunctionCall
deriving DecidableEq

/-- The body of a tool-execution request; `none` models a payload with no
`toolCalls` array at all. -/
structure ToolMessage where
  toolCalls : Option (List ToolCall)
deriving DecidableEq

/-- A row of the `clients` table: department transfer numbers and the link
to the externally provisioned agent identity. -/
structure Client where
  id : String
  name : String
  vapiAssistantId : Option String
  salesPhone : Option String
  rentalsPhone : Option String
  servicePhone : Option String
  partsPhone : Option String
  billingPhone : Option String
deriving DecidableEq

/-- The parts of `payload.message.call` the tool handlers read. -/
structure CallInfo where
  controlUrl : Option String
  customerNumber : Option String
  phoneNumberId : Option String
deriving DecidableEq

/-- Injected collaborators of the tool handlers.  `contacts` is the Caller
Directory lookup (which may throw); `phoneToClient` and `defaultClient`
model the `client_phone_numbers` mapping and the `tex-intel-primary`
fallback row; `saveCallbackOk` and `transferPostOk` say whether the
callback store write and the live-call-control POST succeed. -/
structure ToolEnv where
  contacts : String → Except Unit (Option Contact)
  phoneToClient : String → Option Client
  defaultClient : Option Client
  saveCallbackOk : Bool
  transferPostOk : Bool

/-- `DatabaseService.getClientByPhoneNumberId`: look the phone-line id up in
the mapping, falling back to the default client row when unmapped. -/
def getClientByPhoneNumberId (phoneToClient : String → Option Client)
    (defaultClient : Option Client) (pid : Option String) : Option Client :=
  match pid.bind phoneToClient with
  | some c => some c
  | none => defaultClient

/-- The department → phone-column map of `handleTransferCall`; an
unrecognized department indexes to `undefined`. -/
def departmentPhone (c : Client) : Option String → Option String
  | some "sales" => c.salesPhone
  | some "rentals" => c.rentalsPhone
  | some "service" => c.servicePhone
  | some "parts" => c.partsPhone
  | some "billing" => c.billingPhone
  | _ => none

/-- Observable side effects of the tool handlers. -/
inductive Effect where
  | savedCallback (clientId customerName customerPhone preferredTime reason department : String)
  | transferPosted (controlUrl destinationNumber handoffBrief callerMessage : String)
deriving DecidableEq

/-- `handleTransferCall`: requires a live-call-control URL, resolves the
client and the department number, and POSTs the transfer command; every
failure throws (modelled as `Except.error` with the thrown message).  The
returned list holds the side effects that happened. -/
def handleTransferCall (env : ToolEnv) (call : CallInfo) (args : ToolArgs) :
    Except String Unit × List Effect :=
  match jsOrNull call.controlUrl with
  | none => (.error "Control URL not available for transfer", [])
  | some controlUrl =>
    let callerNumber := (jsOrNull call.customerNumber).getD "Unknown"
    let callerName :=
      match env.contacts callerNumber with
      | .ok (some customer) =>
          jsStrNull customer.name ++ " from " ++ jsStrNull customer.company
      | .ok none => "Unknown caller"
      | .error _ => "Unknown caller"
    match getClientByPhoneNumberId env.phoneToClient env.defaultClient
        call.phoneNumberId with
    | none => (.error "Client not found for this phone number", [])
    | some client =>
      match jsOrNull (departmentPhone client args.department) with
      | none =>
          (.error ("Transfer destination not configured for "
            ++ jsStr args.department), [])
      | some destinationNumber =>
        let urgency := args.urgency.getD "medium"
        let handoffBrief := "Transfer from " ++ client.name ++ " receptionist. "
          ++ callerName ++ ". " ++ jsStr args.reason ++ ". Urgency: "
          ++ urgency ++ "."
        let callerMessage :=
          if urgency = "critical" then
            "Connecting you to " ++ jsStr args.department ++ " immediately."
          else
            "Perfect, connecting you to " ++ jsStr args.department
              ++ " now. They\x27ll be right with you."
        if env.transferPostOk then
          (.ok (), [.transferPosted controlUrl destinationNumber handoffBrief callerMessage])
        else
          (.error "transfer control request failed", [])

/-- `handleScheduleCallback`: resolves the client (degrading to an apology
string when missing), writes the callback request, and returns a spoken
confirmation; a failing store write is caught inside the handler and
replaced by a fallback string. -/
def handleScheduleCallback (env : ToolEnv) (call : CallInfo) (args : ToolArgs) :
    String × List Effect :=
  match getClientByPhoneNumberId env.phoneToClient env.defaultClient
      call.phoneNumberId with
  | none =>
      ("I\x27ve noted your callback request, but there was an issue on our end. Please try calling back during business hours.", [])
  | some client =>
    if env.saveCallbackOk then
      ("Got it! I\x27ve got you down for a callback " ++ jsStr args.preferredTime
        ++ ". Someone from " ++ jsStr args.department
        ++ " will give you a call then. Anything else you want me to pass along to them?",
       [.savedCallback client.id (jsStr args.customerName)
          (jsStr args.customerPhone) (jsStr args.preferredTime)
          (jsStr args.reason) (jsStr args.department)])
    else
      ("Got it, I\x27ve made a note of that. Someone will give you a call back during business hours.", [])

/-- `handleCheckInventory`: `args.query || ""` into the Equipment
Directory. -/
def handleCheckInventory (args : ToolArgs) : String :=
  searchAndFormat ((jsOrNull args.query).getD "")

/-- The three entries of the `toolHandlers` registry. -/
inductive HandlerKind where
  | checkInventory
  | transferCall
  | scheduleCallback
deriving DecidableEq

/-- The `toolHandlers` registry: name-keyed lookup. -/
def toolHandlers : String → Option HandlerKind
  | "check_inventory" => some .checkInventory
  | "transfer_call" => some .transferCall
  | "schedule_callback" => some .scheduleCallback
  | _ => none

/-- The registry's sync/async flag. -/
def handlerIsAsync : HandlerKind → Bool
  | .transferCall => true
  | _ => false

/-- The JSON bodies the tool-execution endpoint responds with. -/
inductive ResponseBody where
  | errorBody (error : String)
  | errorWithDetails (error details : String)
  | toolResults (toolCallId result : String)
  | statusOk
deriving DecidableEq

/-- An HTTP response (Fastify `reply.send` defaults the status to 200). -/
structure HttpResponse where
  status : Nat
  body : ResponseBody
deriving DecidableEq

/-- `handleToolExecution`: the dispatcher.  An absent or empty `toolCalls`
batch answers 200 `{error: "No tool calls found"}`; otherwise the FIRST
invocation's name is looked up in the registry — an unknown name answers a
sync not-found result; a known handler runs, async handlers answer a bare
acknowledgement, sync handlers answer the result string, and a thrown
handler error is caught and answered as a 500. -/
def handleToolExecution (env : ToolEnv) (call : CallInfo) (msg : ToolMessage) :
    HttpResponse × List Effect :=
  match msg.toolCalls with
  | none => (⟨200, .errorBody "No tool calls found"⟩, [])
  | some [] => (⟨200, .errorBody "No tool calls found"⟩, [])
  | some (toolCall :: _) =>
    let functionName := toolCall.function.name
    let args := parseToolArgs toolCall.function.arguments
    match toolHandlers functionName with
    | none =>
        (⟨200, .toolResults toolCall.id
            ("Error: Tool \x27" ++ functionName ++ "\x27 not found.")⟩, [])
    | some .checkInventory =>
        (⟨200, .toolResults toolCall.id (handleCheckInventory args)⟩, [])
    | some .transferCall =>
        match handleTransferCall env call args with
        | (.ok _, effects) => (⟨200, .statusOk⟩, effects)
        | (.error e, effects) =>
            (⟨500, .errorWithDetails "Tool execution failed" e⟩, effects)
    | some .scheduleCallback =>
        let r := handleScheduleCallback env call args
        (⟨200, .toolResults toolCall.id r.1⟩, r.2)

/-- A tool environment with no stored data and all collaborators healthy. -/
def emptyToolEnv : ToolEnv :=
  ⟨fun _ => .ok none, fun _ => none, none, true, true⟩

/-- A call payload carrying no control URL, caller number or phone-line
id. -/
def sampleCallInfo : CallInfo := ⟨none, none, none⟩

/-- A tool invocation naming the unregistered function `foo`. -/
def fooToolCall : ToolCall := ⟨"tc-1", ⟨"foo", .obj emptyToolArgs⟩⟩

/-- C4 counterexample: for the unregistered tool name `foo` the dispatcher
answers a 200 sync result, but its result string is
`Error: Tool 'foo' not found.` — not exactly `Tool not found.` as the spec
states. -/
theorem tool_not_found_counterexample :
    (handleToolExecution emptyToolEnv sampleCallInfo ⟨some [fooToolCall]⟩).1
      = ⟨200, .toolResults "tc-1" "Error: Tool \x27foo\x27 not found."⟩
    ∧ ("Error: Tool \x27foo\x27 not found." : String) ≠ "Tool not found." := by
  exact ⟨rfl, by decide⟩

/-- C4 amended: for every tool-execution request whose first invocation
names a function absent from the `toolHandlers` registry, the dispatcher
replies in the same response cycle with a 200 sync result whose result
string is `Error: Tool '<name>' not found.`, performs no side effect and
does not raise or fail the request. -/
theorem tool_not_found_sync (env : ToolEnv) (call : CallInfo) (tc : ToolCall)
    (rest : List ToolCall) (h : toolHandlers tc.function.name = none) :
    handleToolExecution env call ⟨some (tc :: rest)⟩
      = (⟨200, .toolResults tc.id
          ("Error: Tool \x27" ++ tc.function.name ++ "\x27 not found.")⟩, []) := by
  simp [handleToolExecution, h]

theorem tool_not_found_sync_witness :
    handleToolExecution emptyToolEnv sampleCallInfo ⟨some [fooToolCall]⟩
      = (⟨200, .toolResults "tc-1" "Error: Tool \x27foo\x27 not found."⟩, []) :=
  tool_not_found_sync emptyToolEnv sampleCallInfo fooToolCall [] rfl

/-- C10: a tool-execution request whose message carries no `toolCalls`
array, or an empty one, invokes no handler and performs no side effect: the
dispatcher replies 200 with body `{error: "No tool calls found"}`. -/
theorem no_tool_calls_noop (env : ToolEnv) (call : CallInfo)
    (tcs : Option (List ToolCall)) (h : tcs = none ∨ tcs = some []) :
    handleToolExecution env call ⟨tcs⟩
      = (⟨200, .errorBody "No tool calls found"⟩, []) := by
  rcases h with h | h <;> subst h <;> rfl

theorem no_tool_calls_noop_witness :
    handleToolExecution emptyToolEnv sampleCallInfo ⟨some []⟩
      = (⟨200, .errorBody "No tool calls found"⟩, []) :=
  no_tool_calls_noop emptyToolEnv sampleCallInfo (some []) (Or.inr rfl)

/-- The default client row, provisioned with an agent identity and a sales
number. -/
def texClient : Client :=
  ⟨"tex-intel-primary", "Tex Intel", some "asst-1", some "+15550001111",
    none, none, none, none⟩

/-- A tool environment whose client resolution succeeds (via the default
row) but whose callback store write fails. -/
def failingCallbackEnv : ToolEnv :=
  ⟨fun _ => .ok none, fun _ => none, some texClient, false, true⟩

/-- A `schedule_callback` invocation with concrete arguments. -/
def callbackToolCall : ToolCall :=
  ⟨"tc-2", ⟨"schedule_callback",
    .obj ⟨none, some "rentals", some "needs a skid steer", none, some "Bob",
      some "+15125559999", some "tomorrow at 9 AM"⟩⟩⟩

/-- A `transfer_call` invocation with concrete arguments. -/
def transferToolCall : ToolCall :=
  ⟨"tc-3", ⟨"transfer_call",
    .obj ⟨none, some "sales", some "pricing question", none, none, none,
      none⟩⟩⟩

/-- C6 counterexample: the callback store write fails, yet the dispatcher
answers a 200 sync result with a reassuring confirmation string — the
handler catches the store failure internally, so a mid-call collaborator
failure IS reported to the agent as an ordinary success result. -/
theorem callback_store_failure_counterexample :
    failingCallbackEnv.saveCallbackOk = false
    ∧ (handleToolExecution failingCallbackEnv sampleCallInfo
         ⟨some [callbackToolCall]⟩).1
        = ⟨200, .toolResults "tc-2"
            "Got it, I\x27ve made a note of that. Someone will give you a call back during business hours."⟩ := by
  exact ⟨rfl, rfl⟩

/-- C6 amended: a collaborator failure inside `transfer_call` (missing
control handle, unresolved client, unconfigured department number, or a
failing live-call-control POST) propagates out of the handler and is
surfaced by the dispatcher as a distinct 500 error response, never as a
success; but a failing Call Record Store write inside `schedule_callback`
is caught by the handler itself and reported as a 200 sync result with a
fallback confirmation string. -/
theorem mid_call_collaborator_failures :
    (∀ (env : ToolEnv) (call : CallInfo) (tc : ToolCall) (rest : List ToolCall)
        (e : String),
      tc.function.name = "transfer_call" →
      (handleTransferCall env call (parseToolArgs tc.function.arguments)).1
        = .error e →
      (handleToolExecution env call ⟨some (tc :: rest)⟩).1
        = ⟨500, .errorWithDetails "Tool execution failed" e⟩)
  ∧ (∀ (env : ToolEnv) (call : CallInfo) (tc : ToolCall) (rest : List ToolCall)
        (c : Client),
      tc.function.name = "schedule_callback" →
      getClientByPhoneNumberId env.phoneToClient env.defaultClient
        call.phoneNumberId = some c →
      env.saveCallbackOk = false →
      (handleToolExecution env call ⟨some (tc :: rest)⟩).1
        = ⟨200, .toolResults tc.id
            "Got it, I\x27ve made a note of that. Someone will give you a call back during business hours."⟩) := by
  constructor
  · intro env call tc rest e hname hfail
    simp only [handleToolExecution, hname, toolHandlers]
    rcases hp : handleTransferCall env call (parseToolArgs tc.function.arguments)
      with ⟨res, effects⟩
    rw [hp] at hfail
    simp only at hfail
    subst hfail
    rfl
  · intro env call tc rest c hname hclient hsave
    simp only [handleToolExecution, hname, toolHandlers,
      handleScheduleCallback, hclient, hsave]
    rfl

theorem mid_call_collaborator_failures_witness :
    (handleToolExecution failingCallbackEnv sampleCallInfo
        ⟨some [transferToolCall]⟩).1
      = ⟨500, .errorWithDetails "Tool execution failed"
          "Control URL not available for transfer"⟩
  ∧ (handleToolExecution failingCallbackEnv sampleCallInfo
        ⟨some [callbackToolCall]⟩).1
      = ⟨200, .toolResults "tc-2"
          "Got it, I\x27ve made a note of that. Someone will give you a call back during business hours."⟩ :=
  ⟨mid_call_collaborator_failures.1 failingCallbackEnv sampleCallInfo
      transferToolCall [] "Control URL not available for transfer" rfl rfl,
   mid_call_collaborator_failures.2 failingCallbackEnv sampleCallInfo
      callbackToolCall [] texClient rfl rfl rfl⟩

/-! ## Context Assembler: `buildDynamicContext`

`buildDynamicContext` in `context-builder.service.ts` builds the
`caller_context` variable from the caller history: a known caller (one with
a truthy stored name) renders a `Name:` line followed by `Company:`,
`Status:` and `Previously asked about:` lines — each emitted only when the
corresponding field is truthy — and the phone; an unknown caller renders
the `New caller (no history)` marker and the phone.  `getCallerHistory`
returns the empty history both when the directory has no row for the phone
and when the lookup itself throws. -/

/-- The caller-history record of the context builder. -/
structure CallerHistory where
  name : Option String
  company : Option String
  status : Option String
  lastMachine : Option String
  totalCalls : Option Int
  lastCallAt : Option String
deriving DecidableEq

/-- The `{}` history. -/
def emptyCallerHistory : CallerHistory := ⟨none, none, none, none, none, none⟩

/-- `getCallerHistory`: a found contact's fields; the empty history when the
directory has no row or when the lookup throws (the error is caught and
logged). -/
def getCallerHistory (lookup : Except Unit (Option Contact)) : CallerHistory :=
  match lookup with
  | .ok (some contact) =>
      ⟨contact.name, contact.company, contact.status, contact.lastMachine,
        some contact.totalCalls, contact.lastCallAt⟩
  | .ok none => emptyCallerHistory
  | .error _ => emptyCallerHistory

/-- The conditional `Company:` line. -/
def companySegment (h : CallerHistory) : String :=
  match jsOrNull h.company with
  | some c => "Company: " ++ c ++ "\n"
  | none => ""

/-- The conditional `Status:` line. -/
def statusSegment (h : CallerHistory) : String :=
  match jsOrNull h.status with
  | some s => "Status: " ++ s ++ "\n"
  | none => ""

/-- The conditional `Previously asked about:` line. -/
def machineSegment (h : CallerHistory) : String :=
  match jsOrNull h.lastMachine with
  | some m => "Previously asked about: " ++ m ++ "\n"
  | none => ""

/-- The `caller_context` text block of `buildDynamicContext` (steps 2 and 4
of the function): branch on a truthy name, then append each optional line
only when its field is truthy. -/
def buildCallerContext (h : CallerHistory) (callerPhone : String) : String :=
  match jsOrNull h.name with
  | some n =>
      "Name: " ++ n ++ "\n" ++ companySegment h ++ statusSegment h
        ++ machineSegment h ++ "Phone: " ++ callerPhone
  | none => "New caller (no history)\nPhone: " ++ callerPhone

/-- C5 counterexample: a known caller with name `Bob` and no stored company
renders a context that never mentions the company field at all — the absent
field is silently omitted, not rendered as an explicit unknown marker. -/
theorem caller_context_counterexample :
    buildCallerContext ⟨some "Bob", none, none, none, none, none⟩
        "+15125559999"
      = "Name: Bob\nPhone: +15125559999"
    ∧ strContains
        (buildCallerContext ⟨some "Bob", none, none, none, none, none⟩
          "+15125559999") "Company" = false := by
  exact ⟨rfl, by decide⟩

theorem str_append_empty (s : String) : s ++ "" = s := by
  cases s with
  | mk l =>
      show String.mk (l ++ []) = String.mk l
      rw [List.append_nil]

/-- C5 amended: an absent caller NAME renders as the explicit
`New caller (no history)` marker; for a known caller each absent optional
field (company, status, last topic) is silently omitted from the context —
it contributes no line and no unknown marker, whatever the other fields
hold — so the text consists of exactly the looked-up fields and the caller
phone. -/
theorem caller_context_renders (h : CallerHistory) (phone : String) :
    (jsOrNull h.name = none →
        buildCallerContext h phone = "New caller (no history)\nPhone: " ++ phone)
  ∧ (∀ n, jsOrNull h.name = some n → jsOrNull h.company = none →
        buildCallerContext h phone
          = "Name: " ++ n ++ "\n" ++ statusSegment h ++ machineSegment h
              ++ "Phone: " ++ phone)
  ∧ (∀ n, jsOrNull h.name = some n → jsOrNull h.status = none →
        buildCallerContext h phone
          = "Name: " ++ n ++ "\n" ++ companySegment h ++ machineSegment h
              ++ "Phone: " ++ phone)
  ∧ (∀ n, jsOrNull h.name = some n → jsOrNull h.lastMachine = none →
        buildCallerContext h phone
          = "Name: " ++ n ++ "\n" ++ companySegment h ++ statusSegment h
              ++ "Phone: " ++ phone)
  ∧ (∀ n, jsOrNull h.name = some n → jsOrNull h.company = none →
      jsOrNull h.status = none → jsOrNull h.lastMachine = none →
        buildCallerContext h phone = "Name: " ++ n ++ "\n" ++ "Phone: " ++ phone) := by
  refine ⟨?_, ?_, ?_, ?_, ?_⟩
  · intro hn
    simp [buildCallerContext, hn]
  · intro n hn hc
    simp only [buildCallerContext, companySegment, hn, hc]
    rw [str_append_empty]
  · intro n hn hs
    simp only [buildCallerContext, statusSegment, hn, hs]
    rw [str_append_empty]
  · intro n hn hm
    simp only [buildCallerContext, machineSegment, hn, hm]
    rw [str_append_empty]
  · intro n hn hc hs hm
    simp only [buildCallerContext, companySegment, statusSegment,
      machineSegment, hn, hc, hs, hm]
    rw [str_append_empty, str_append_empty, str_append_empty]

/-- A known caller with a stored company but no status and no last topic. -/
def mixedHistory : CallerHistory :=
  ⟨some "Bob", some "Acme", none, none, none, none⟩

theorem caller_context_renders_witness :
    buildCallerContext emptyCallerHistory "+17135557777"
      = "New caller (no history)\nPhone: " ++ "+17135557777"
  ∧ buildCallerContext mixedHistory "+15125559999"
      = "Name: Bob\nCompany: Acme\nPhone: +15125559999"
  ∧ buildCallerContext ⟨some "Bob", none, none, none, none, none⟩
        "+15125559999"
      = "Name: " ++ "Bob" ++ "\n" ++ "Phone: " ++ "+15125559999" :=
  ⟨(caller_context_renders emptyCallerHistory "+17135557777").1 rfl,
   (caller_context_renders mixedHistory "+15125559999").2.2.1 "Bob" rfl rfl,
   (caller_context_renders ⟨some "Bob", none, none, none, none, none⟩
      "+15125559999").2.2.2.2 "Bob" rfl rfl rfl rfl⟩

/-- C7: for every phone number whose directory lookup finds no row — or
whose lookup itself throws — the caller-context block is exactly the
`New caller (no history)` marker followed by the phone, and so contains no
caller name. -/
theorem new_caller_marker (phone : String) (lookup : Except Unit (Option Contact))
    (h : lookup = .ok none ∨ lookup = .error ()) :
    buildCallerContext (getCallerHistory lookup) phone
      = "New caller (no history)\nPhone: " ++ phone
    ∧ strContains (buildCallerContext (getCallerHistory lookup) phone)
        "New caller" = true := by
  rcases h with h | h <;> subst h <;>
    exact ⟨rfl, by
      show strContains ("New caller (no history)\nPhone: " ++ phone)
        "New caller" = true
      cases phone with
      | mk l =>
          show hasSubList "New caller".data
            (("New caller (no history)\nPhone: " : String).data ++ l) = true
          rfl⟩

theorem new_caller_marker_witness :
    buildCallerContext (getCallerHistory (.ok none)) "+19998887777"
      = "New caller (no history)\nPhone: +19998887777"
    ∧ strContains
        (buildCallerContext (getCallerHistory (.ok none)) "+19998887777")
        "New caller" = true :=
  new_caller_marker "+19998887777" (.ok none) (Or.inl rfl)

/-! ## Session Controller: `handleEndOfCallReport`

The end-of-call handler of `inbound.controller.ts` extracts the first
structured output (ignored when it is itself an error), parses a numeric
success score out of the free-text evaluation, then — inside one
`try/catch` — upserts the call row, persists the structured data and
updates the contact aggregate.  Any persistence failure is caught, logged
and swallowed; the handler always acknowledges with 200 `{status: 'ok'}`. -/

/-- The structured-analysis record extracted externally from the
transcript. -/
structure StructuredData where
  callerName : Option String
  callerCompany : Option String
  callerEmail : Option String
  callerPhone : Option String
  machineMake : Option String
  machineModel : Option String
  machineCategory : Option String
  notes : Option String
deriving DecidableEq

/-- One entry of `artifact.structuredOutputs`. -/
structure StructuredOutput where
  error : Option String
  result : Option StructuredData
deriving DecidableEq

/-- The `end-of-call-report` webhook message (structuredOutputs empty when
the artifact carries none). -/
structure EndOfCallMessage where
  callId : String
  phoneNumberId : Option String
  customerNumber : Option String
  callType : Option String
  startedAt : Option Int
  endedAt : Option Int
  status : String
  endedReason : Option String
  transcript : Option String
  summary : Option String
  recordingUrl : Option String
  stereoRecordingUrl : Option String
  successEvaluation : Option String
  cost : Option Int
  costBreakdown : Option CostBreakdown
  structuredOutputs : List StructuredOutput
deriving DecidableEq

/-- The extraction step: the first structured output, kept only when it is
not itself an error and carries a result. -/
def extractStructuredData (m : EndOfCallMessage) : Option StructuredData :=
  match m.structuredOutputs.head? with
  | some so =>
      match jsOrNull so.error, so.result with
      | none, some r => some r
      | _, _ => none
  | none => none

/-- The maximal run of digits at the head of the list. -/
def takeDigits : List Char → List Char
  | [] => []
  | c :: rest => if c.isDigit then c :: takeDigits rest else []

/-- The first run of digits anywhere in the list, as matched by the regex
`(\d+)`. -/
def firstDigitRun : List Char → Option (List Char)
  | [] => none
  | c :: rest => if c.isDigit then some (c :: takeDigits rest) else firstDigitRun rest

/-- Decimal value of a digit run (`parseInt`). -/
def digitsToNat (ds : List Char) : Nat :=
  ds.foldl (fun acc c => acc * 10 + (c.toNat - 48)) 0

/-- The success-score parse: `score.match(/(\d+)/)` then `parseInt`, e.g.
`"8/10"` gives `8`; absent when the text holds no digits. -/
def parseSuccessScore (s : String) : Option Int :=
  match firstDigitRun s.data with
  | some ds => some (Int.ofNat (digitsToNat ds))
  | none => none

/-- The `saveCall` argument assembled by the end-of-call handler. -/
def callDataOfReport (m : EndOfCallMessage) : CallData :=
  { id := m.callId
    phoneNumberId := m.phoneNumberId
    callerPhone := m.customerNumber
    callType := m.callType
    startedAt := m.startedAt
    endedAt := m.endedAt
    status := m.status
    endedReason := m.endedReason
    transcript := m.transcript
    summary := m.summary
    recordingUrl := m.recordingUrl
    stereoRecordingUrl := m.stereoRecordingUrl
    successScore := (jsOrNull m.successEvaluation).bind parseSuccessScore
    cost := m.cost
    costBreakdown := m.costBreakdown }

/-- The machine mention written to the contact:
`make && model ? make + " " + model : category || null`. -/
def machineMention (sd : StructuredData) : Option String :=
  match jsOrNull sd.machineMake, jsOrNull sd.machineModel with
  | some mk, some md => some (mk ++ " " ++ md)
  | _, _ => jsOrNull sd.machineCategory

/-- The contact field set the end-of-call handler sends to
`updateContact`. -/
def contactUpdateOfStructured (sd : StructuredData) : ContactUpdate :=
  ⟨sd.callerName, sd.callerCompany, sd.callerEmail, machineMention sd⟩

/-- The caller phone used for the contact update:
`structuredData.caller?.phone || call?.customer?.number`. -/
def reportCallerPhone (sd : StructuredData) (m : EndOfCallMessage) : Option String :=
  match jsOrNull sd.callerPhone with
  | some p => some p
  | none => jsOrNull m.customerNumber

/-- `DatabaseService.saveStructuredData`: `INSERT OR REPLACE INTO
call_structured_data` keyed by the unique `call_id`. -/
def saveStructuredData (store : List (String × StructuredData)) (callId : String)
    (sd : StructuredData) : List (String × StructuredData) :=
  (callId, sd) :: store.filter (fun p => !(p.1 == callId))

/-- The three tables the end-of-call handler writes. -/
structure Db where
  calls : List CallRow
  structured : List (String × StructuredData)
  contacts : List Contact

/-- Which of the three persistence collaborators succeed; a `false` flag
models the corresponding database call throwing. -/
structure PersistEnv where
  saveCallOk : Bool
  saveStructuredOk : Bool
  updateContactOk : Bool
deriving DecidableEq

/-- The body of the end-of-call handler's `try` block: upsert the call row;
when structured data is present, persist it and update the contact
aggregate.  The first throwing step aborts the rest (the exception jumps to
the `catch`), leaving the writes made so far in place; the returned
`Option String` is the caught error message, `none` when every step
succeeded. -/
def persistEndOfCall (env : PersistEnv) (now : String) (db : Db)
    (m : EndOfCallMessage) : Db × Option String :=
  if env.saveCallOk = false then (db, some "saveCall failed")
  else
    let db1 : Db := { db with calls := saveCall db.calls (callDataOfReport m) }
    match extractStructuredData m with
    | none => (db1, none)
    | some sd =>
      if env.saveStructuredOk = false then (db1, some "saveStructuredData failed")
      else
        let db2 : Db :=
          { db1 with structured := saveStructuredData db1.structured m.callId sd }
        match reportCallerPhone sd m with
        | none => (db2, none)
        | some phone =>
          if env.updateContactOk = false then (db2, some "updateContact failed")
          else
            let contacts2 :=
              updateContact now db2.contacts phone (contactUpdateOfStructured sd)
            ({ db2 with contacts := contacts2 }, none)

/-- `handleEndOfCallReport`: run the persistence block inside `try/catch` —
a caught failure is logged and swallowed — and acknowledge with 200
`{status: 'ok'}` either way. -/
def handleEndOfCallReport (env : PersistEnv) (now : String) (db : Db)
    (m : EndOfCallMessage) : HttpResponse × Db :=
  match persistEndOfCall env now db m with
  | (db', some _) => (⟨200, .statusOk⟩, db')
  | (db', none) => (⟨200, .statusOk⟩, db')

/-- C8: whatever subset of the call-row write, the structured-data write and
the contact update fails, the end-of-call handler still acknowledges with
200 `{status: 'ok'}`; the failure is swallowed (the response never carries
it) and the writes that happened before the failure are kept. -/
theorem end_of_call_ack_always_ok (env : PersistEnv) (now : String) (db : Db)
    (m : EndOfCallMessage) :
    (handleEndOfCallReport env now db m).1 = ⟨200, .statusOk⟩
    ∧ (handleEndOfCallReport env now db m).2 = (persistEndOfCall env now db m).1 := by
  unfold handleEndOfCallReport
  rcases hp : persistEndOfCall env now db m with ⟨db', e⟩
  cases e <;> simp

/-! ## Session Controller: `handleAssistantRequest`

The assistant-request handler resolves the phone line to a client (falling
back to the default row), fails the webhook with a 404 when no client
resolves and with a 500 when the client has no provisioned
`vapi_assistant_id`, and otherwise answers a configuration pairing the
permanent assistant id with the transient per-call override (personalized
first message and dynamic context).  The downstream context build is
injected as a collaborator. -/

/-- The `assistant-request` webhook message. -/
structure AssistantRequestMsg where
  callId : String
  phoneNumberId : Option String
  customerNumber : Option String
deriving DecidableEq

/-- The webhook's answer: an error status with a machine-readable message,
or the hybrid assistant configuration. -/
inductive AssistantResponse where
  | err (status : Nat) (error : String)
  | config (assistantId firstMessage systemContent : String)
deriving DecidableEq

/-- Injected collaborators of the assistant-request handler.  `contacts` is
the caller-history lookup (which may throw); `dynamicContext` is the
Context Assembler, giving the per-call context text and the after-hours
flag for a caller phone and client id. -/
structure InboundEnv where
  phoneToClient : String → Option Client
  defaultClient : Option Client
  contacts : String → Except Unit (Option Contact)
  dynamicContext : String → String → String × Bool

/-- The caller-history record handed to `buildFirstMessage`
(`{name, company, status}` of the found contact). -/
def callerHistoryOfContact (c : Contact) : CallerHistory :=
  ⟨c.name, c.company, c.status, c.lastMachine, some c.totalCalls, c.lastCallAt⟩

/-- `buildFirstMessage`: the opening line, picked from the after-hours flag
and a truthy caller name. -/
def buildFirstMessage (clientName : String) (callerHistory : Option CallerHistory)
    (isAfterHours : Bool) : String :=
  if isAfterHours then
    match callerHistory.bind (fun h => jsOrNull h.name) with
    | some n =>
        "Hi " ++ n ++ ", thanks for calling " ++ clientName
          ++ ". We\x27re currently closed, but I can help you schedule a callback."
    | none =>
        "Thanks for calling " ++ clientName
          ++ ". We\x27re currently closed, but I can help you schedule a callback."
  else
    match callerHistory.bind (fun h => jsOrNull h.name) with
    | some n =>
        "Hi " ++ n ++ ", thanks for calling " ++ clientName
          ++ " again. This is Tex, how can I help you today?"
    | none =>
        "Thanks for calling " ++ clientName
          ++ ". This is Tex, how can I help you today?"

/-- `handleAssistantRequest`: resolve the client (404 when none), require a
provisioned assistant id (500 when absent), look the caller up (a throwing
lookup is caught by the handler's `try/catch` as a 500), and answer the
permanent-assistant-id-plus-transient-override configuration. -/
def handleAssistantRequest (env : InboundEnv) (m : AssistantRequestMsg) :
    AssistantResponse :=
  let callerNumber := (jsOrNull m.customerNumber).getD "unknown"
  match getClientByPhoneNumberId env.phoneToClient env.defaultClient
      m.phoneNumberId with
  | none => .err 404 "Client not found for this phone number"
  | some client =>
    match jsOrNull client.vapiAssistantId with
    | none => .err 500 "Assistant not configured. Run sync script."
    | some assistantId =>
      match env.contacts callerNumber with
      | .error _ => .err 500 "Failed to load assistant configuration"
      | .ok callerHistory =>
        let d := env.dynamicContext callerNumber client.id
        let firstMessage := buildFirstMessage client.name
          (callerHistory.map callerHistoryOfContact) d.2
        .config assistantId firstMessage d.1

/-- C9: when the resolved client has no provisioned assistant id (a falsy
`vapi_assistant_id`), the assistant-request webhook answers the non-200
error status 500 with the machine-readable message
`Assistant not configured. Run sync script.`, and never answers an
assistant configuration. -/
theorem unprovisioned_tenant_fails (env : InboundEnv) (m : AssistantRequestMsg)
    (client : Client)
    (hres : getClientByPhoneNumberId env.phoneToClient env.defaultClient
        m.phoneNumberId = some client)
    (hid : jsOrNull client.vapiAssistantId = none) :
    handleAssistantRequest env m
      = .err 500 "Assistant not configured. Run sync script."
    ∧ ∀ aid fm sc, handleAssistantRequest env m ≠ .config aid fm sc := by
  have h1 : handleAssistantRequest env m
      = .err 500 "Assistant not configured. Run sync script." := by
    simp [handleAssistantRequest, hres, hid]
  refine ⟨h1, fun aid fm sc hcontra => ?_⟩
  rw [h1] at hcontra
  cases hcontra

/-- A client row whose agent identity was never provisioned. -/
def unprovisionedClient : Client :=
  ⟨"tex-intel-primary", "Tex Intel", none, none, none, none, none, none⟩

/-- An inbound environment resolving every line to the unprovisioned
default client. -/
def unprovisionedEnv : InboundEnv :=
  ⟨fun _ => none, some unprovisionedClient, fun _ => .ok none,
    fun _ _ => ("", false)⟩

/-- A concrete assistant request on an unmapped line. -/
def sampleAssistantMsg : AssistantRequestMsg :=
  ⟨"call-9", none, some "+15125559999"⟩

theorem unprovisioned_tenant_fails_witness :
    handleAssistantRequest unprovisionedEnv sampleAssistantMsg
      = .err 500 "Assistant not configured. Run sync script." :=
  (unprovisioned_tenant_fails unprovisionedEnv sampleAssistantMsg
    unprovisionedClient rfl rfl).1

end TexVoice
